import Mathlib

set_option linter.unusedVariables false

/-!
Verification development for the easydrm DRM/KMS framework.

The definitions below are a shallow embedding of the project's source:
`src/monitor.rs` (the per-monitor pipeline), `src/lib.rs` (the orchestrator),
and `src/hotplug.rs` (the uevent drain).  Kernel objects (connectors, CRTCs,
planes, buffer objects, framebuffers, EGL syncs) are identified by natural
numbers; raw file descriptors by integers.  Calls into the kernel and EGL
that can fail are driven by an explicit environment value, and their
externally visible actions are recorded in an effect log.
-/

/-- Display mode (drm `Mode`): size plus vertical refresh rate.  Modes
compare by structural equality, as in the source. -/
structure Mode where
  width : Nat
  height : Nat
  vrefresh : Nat
deriving DecidableEq

/-- The `Monitor<T>` struct of `src/monitor.rs`, field for field.  The cached
property maps are represented by the facts the commit path consults: whether
the CRTC / primary-plane property map contains `IN_FENCE_FD` (the named
properties `CRTC_ID`, `MODE_ID`, ... are always present and are referred to
by name in atomic requests). -/
structure Monitor (T : Type) where
  connectorId : Nat
  crtcHandle : Nat
  defaultMode : Mode
  requestedMode : Option Mode
  currentMode : Option Mode
  primaryPlaneId : Nat
  cursorPlaneId : Option Nat
  canRender : Bool
  wasDrawn : Bool
  previousBo : Option Nat
  previousFenceFd : Option Int
  previousSync : Option Nat
  crtcHasInFence : Bool
  planeHasInFence : Bool
  firstFrame : Bool
  userContext : T
deriving DecidableEq

/-- `impl PartialEq for Monitor`: `other.connector_id == self.connector_id`. -/
def Monitor.beqByConnector {T : Type} (a b : Monitor T) : Bool :=
  b.connectorId == a.connectorId

/-- `impl Hash for Monitor`: the data fed to the hasher is exactly
`connector_id` — we model the hash as that input stream. -/
def Monitor.hashStream {T : Type} (m : Monitor T) : List Nat :=
  [m.connectorId]

/-- C9: Equality and hashing of `Monitor<T>` depend only on `connector_id`:
two monitors compare equal exactly when their connector handles are equal,
and the data they feed to the hasher coincides exactly when their connector
handles are equal, regardless of every other field. -/
theorem monitor_eq_hash_connector_only {T : Type} (m1 m2 : Monitor T) :
    (Monitor.beqByConnector m1 m2 = true ↔ m1.connectorId = m2.connectorId)
    ∧ (Monitor.hashStream m1 = Monitor.hashStream m2 ↔
        m1.connectorId = m2.connectorId) := by
  constructor
  · rw [Monitor.beqByConnector, beq_iff_eq]
    exact eq_comm
  · simp [Monitor.hashStream]

/-! ## UEvent socket drain (`src/hotplug.rs`) -/

/-- Substring test on character lists: Rust `str::contains`. -/
def strContains (pat : List Char) : List Char → Bool
  | [] => pat.isEmpty
  | c :: rest => pat.isPrefixOf (c :: rest) || strContains pat rest

/-- The qualification test of `drain_hotplug_events`: the message contains
`SUBSYSTEM=drm` and `HOTPLUG=1` and (`DEVTYPE=connector` or `DEVNAME=card`). -/
def isDrmHotplug (msg : List Char) : Bool :=
  strContains ("SUBSYSTEM=drm").toList msg
    && strContains ("HOTPLUG=1").toList msg
    && (strContains ("DEVTYPE=connector").toList msg
        || strContains ("DEVNAME=card").toList msg)

/-- One outcome of the non-blocking `recv` in the drain loop: a message of
bytes, `EAGAIN`, or another errno `e`. -/
inductive RecvResult where
  | ok (msg : List Char)
  | eagain
  | err (e : Nat)
deriving DecidableEq

/-- `UEventSocket::drain_hotplug_events`, driven by the queue of `recv`
outcomes.  An exhausted queue behaves like `EAGAIN` (an empty socket buffer).
The accumulator is the local `found` flag, initially `false`. -/
def drain_hotplug_events : List RecvResult → Bool → Except Nat Bool
  | [], found => Except.ok found
  | RecvResult.ok msg :: rest, found =>
      if msg.length > 0
      then drain_hotplug_events rest (found || isDrmHotplug msg)
      else drain_hotplug_events rest found
  | RecvResult.eagain :: _, found => Except.ok found
  | RecvResult.err e :: _, _ => Except.error e

theorem drain_ok_run (msgs : List (List Char)) (found : Bool) :
    drain_hotplug_events (msgs.map RecvResult.ok ++ [RecvResult.eagain]) found
      = Except.ok (found || msgs.any isDrmHotplug) := by
  induction msgs generalizing found with
  | nil => simp [drain_hotplug_events]
  | cons m rest ih =>
      cases m with
      | nil => simp [drain_hotplug_events, ih, isDrmHotplug, strContains]
      | cons c cs =>
          simp [drain_hotplug_events, ih, Bool.or_assoc]

theorem drain_err_run (msgs : List (List Char)) (e : Nat) (rest : List RecvResult)
    (found : Bool) :
    drain_hotplug_events (msgs.map RecvResult.ok ++ RecvResult.err e :: rest) found
      = Except.error e := by
  induction msgs generalizing found with
  | nil => simp [drain_hotplug_events]
  | cons m ms ih =>
      cases m with
      | nil => simp [drain_hotplug_events, ih]
      | cons c cs => simp [drain_hotplug_events, ih]

/-- C7: the drain loop receives non-blockingly until `EAGAIN` and returns
true iff at least one drained message contains `SUBSYSTEM=drm`, `HOTPLUG=1`
and (`DEVTYPE=connector` or `DEVNAME=card`); any receive error other than
`EAGAIN` aborts the drain with that error.  A buffer with exactly one
qualifying connector message yields true; messages missing any of the three
tokens (and lacking `DEVNAME=card`) yield false. -/
theorem drain_hotplug_events_spec :
    (∀ msgs : List (List Char),
      drain_hotplug_events (msgs.map RecvResult.ok ++ [RecvResult.eagain]) false
        = Except.ok (msgs.any isDrmHotplug))
    ∧ (∀ (msgs : List (List Char)) (e : Nat) (rest : List RecvResult),
      drain_hotplug_events (msgs.map RecvResult.ok ++ RecvResult.err e :: rest) false
        = Except.error e)
    ∧ drain_hotplug_events
        [RecvResult.ok ("change@/devices/pci0/drm/card0 SUBSYSTEM=drm HOTPLUG=1 DEVTYPE=connector").toList,
         RecvResult.eagain] false = Except.ok true
    ∧ drain_hotplug_events
        [RecvResult.ok ("SUBSYSTEM=usb HOTPLUG=1 DEVTYPE=connector").toList,
         RecvResult.eagain] false = Except.ok false
    ∧ drain_hotplug_events
        [RecvResult.ok ("SUBSYSTEM=drm DEVTYPE=connector").toList,
         RecvResult.eagain] false = Except.ok false
    ∧ drain_hotplug_events
        [RecvResult.ok ("SUBSYSTEM=drm HOTPLUG=1 DEVTYPE=drm_minor").toList,
         RecvResult.eagain] false = Except.ok false := by
  refine ⟨fun msgs => ?_, fun msgs e rest => ?_, ?_, ?_, ?_, ?_⟩
  · simpa using drain_ok_run msgs false
  · simpa using drain_err_run msgs e rest false
  · rfl
  · rfl
  · rfl
  · rfl

/-! ## Event loop (`EasyDRM::poll_events_ex`, `src/lib.rs`)

The embedding records the observable decisions of one `poll_events_ex` call:
whether hot-plug handling ran, whether DRM event handling ran, and the
returned result.  `pollRes` is the outcome of the `poll(2)` system call
together with the readiness the kernel reported for the DRM and uevent
descriptors; on a poll error the `revents` fields keep their zero
initialisation, which the source reads back via `unwrap_or(empty)` after
discarding the error with `.ok()`. -/

def poll_events_ex (hasUevent : Bool) (pollRes : Except Nat (Bool × Bool))
    (drainRes : Except Nat Bool) (hotplugRes drmRes : Except Nat Unit) :
    Bool × Bool × Except Nat Unit :=
  let drmReady := match pollRes with
    | Except.ok r => r.1
    | Except.error _ => false
  let hotplugReady := hasUevent && (match pollRes with
    | Except.ok r => r.2
    | Except.error _ => false)
  let doHot := hotplugReady && (match drainRes with
    | Except.ok b => b
    | Except.error _ => false)
  match (if doHot then hotplugRes else Except.ok ()) with
  | Except.error e => (doHot, false, Except.error e)
  | Except.ok _ =>
      if drmReady then
        match drmRes with
        | Except.error e => (doHot, true, Except.error e)
        | Except.ok _ => (doHot, true, Except.ok ())
      else (doHot, false, Except.ok ())

/-- C10: `poll_events_ex` discards the result of `poll(2)`: when the poll
call itself fails, no descriptor is treated as ready, neither DRM nor
hot-plug handling runs, and the method returns success instead of the poll
error — whatever the drain and the handlers would have done. -/
theorem poll_error_ignored (hasUevent : Bool) (e : Nat)
    (drainRes : Except Nat Bool) (hotplugRes drmRes : Except Nat Unit) :
    poll_events_ex hasUevent (Except.error e) drainRes hotplugRes drmRes
      = (false, false, Except.ok ()) := by
  cases hasUevent <;> rfl

/-! ## Per-monitor atomic commit (`Monitor::swap_buffers`, `src/monitor.rs`)

The externally visible actions of the commit path are recorded as effects:
closing a fence descriptor, destroying an EGL sync, creating the new EGL
fence, adding a DRM framebuffer, and submitting an atomic commit with its
flags (`PAGE_FLIP_EVENT` always; `ALLOW_MODESET` as computed) and its
property request. -/

/-- A DRM property value as used by the commit path. -/
inductive PropVal where
  | crtcVal (h : Option Nat)
  | modeBlob (m : Mode)
  | boolean (b : Bool)
  | uRange (v : Nat)
  | sRange (v : Int)
  | framebuffer (f : Option Nat)
deriving DecidableEq

/-- One `add_property` entry of an atomic request: target object handle,
property name, value. -/
structure AtomicProp where
  obj : Nat
  propName : String
  value : PropVal
deriving DecidableEq

/-- Observable side effects of the commit path. -/
inductive Effect where
  | closeFd (fd : Int)
  | destroySync (s : Nat)
  | createFence (fd : Int) (s : Nat)
  | addFramebuffer (bo : Nat) (fb : Nat)
  | atomicCommit (pageFlipEvent : Bool) (allowModeset : Bool) (req : List AtomicProp)
deriving DecidableEq

/-- Errors of the monitor pipeline (`MonitorSetupError`). -/
inductive MSetupError where
  | ioError
  | notConnected
  | noCRTCFound
  | noModesFound
  | noPrimaryPlaneFound
  | glesContextError
  | drmError (msg : String)
deriving DecidableEq

/-- Outcomes of the fallible kernel/EGL calls one `Monitor::swap_buffers`
performs: EGL make-current, the GBM/EGL buffer swap (returning the new
buffer object), EGL fence creation (returning fence fd and sync handle),
framebuffer creation, mode-blob creation, and the atomic commit itself. -/
structure SwapEnv where
  makeCurrentOk : Bool
  swapBo : Option Nat
  fenceRes : Option (Int × Nat)
  fbRes : Option Nat
  blobOk : Bool
  commitOk : Bool
deriving DecidableEq

/-- An environment in which every fallible step succeeds. -/
def SwapEnv.good (env : SwapEnv) : Bool :=
  env.makeCurrentOk && env.swapBo.isSome && env.fenceRes.isSome
    && env.fbRes.isSome && env.blobOk && env.commitOk

/-- `needs_mode_set`: `requested_mode != current_mode`. -/
def Monitor.needs_mode_set {T : Type} (m : Monitor T) : Bool :=
  m.requestedMode != m.currentMode

/-- `mark_mode_set`: `current_mode = requested_mode`. -/
def Monitor.mark_mode_set {T : Type} (m : Monitor T) : Monitor T :=
  { m with currentMode := m.requestedMode }

/-- Lines 315–323 of `src/monitor.rs`: close the previous fence descriptor
and destroy the previous EGL sync object, when present. -/
def cleanupFx {T : Type} (m : Monitor T) : List Effect :=
  (match m.previousFenceFd with
    | some f => [Effect.closeFd f]
    | none => [])
  ++ (match m.previousSync with
    | some s => [Effect.destroySync s]
    | none => [])

/-- The mode-set block of the atomic request (lines 345–422): connector
`CRTC_ID`, CRTC `MODE_ID` blob and `ACTIVE`, and full-screen plane setup
with 16.16 fixed-point source size. -/
def modeSetProps {T : Type} (m : Monitor T) (target : Mode) : List AtomicProp :=
  [⟨m.connectorId, "CRTC_ID", PropVal.crtcVal (some m.crtcHandle)⟩,
   ⟨m.crtcHandle, "MODE_ID", PropVal.modeBlob target⟩,
   ⟨m.crtcHandle, "ACTIVE", PropVal.boolean true⟩,
   ⟨m.primaryPlaneId, "CRTC_ID", PropVal.crtcVal (some m.crtcHandle)⟩,
   ⟨m.primaryPlaneId, "SRC_X", PropVal.uRange 0⟩,
   ⟨m.primaryPlaneId, "SRC_Y", PropVal.uRange 0⟩,
   ⟨m.primaryPlaneId, "SRC_W", PropVal.uRange (target.width <<< 16)⟩,
   ⟨m.primaryPlaneId, "SRC_H", PropVal.uRange (target.height <<< 16)⟩,
   ⟨m.primaryPlaneId, "CRTC_X", PropVal.sRange 0⟩,
   ⟨m.primaryPlaneId, "CRTC_Y", PropVal.sRange 0⟩,
   ⟨m.primaryPlaneId, "CRTC_W", PropVal.uRange target.width⟩,
   ⟨m.primaryPlaneId, "CRTC_H", PropVal.uRange target.height⟩]

/-- The `IN_FENCE_FD` attachment (lines 432–444): prefer the CRTC property,
fall back to the plane property, otherwise omit. -/
def fenceProps {T : Type} (m : Monitor T) (fenceFd : Int) : List AtomicProp :=
  if m.crtcHasInFence then [⟨m.crtcHandle, "IN_FENCE_FD", PropVal.sRange fenceFd⟩]
  else if m.planeHasInFence then [⟨m.primaryPlaneId, "IN_FENCE_FD", PropVal.sRange fenceFd⟩]
  else []

/-- The full property request one `Monitor::swap_buffers` builds: the
mode-set block when `needs_mode_set()`, always the plane `FB_ID`, then the
fence attachment. -/
def swapReq {T : Type} (m : Monitor T) (fenceFd : Int) (fb : Nat) : List AtomicProp :=
  (if m.needs_mode_set then modeSetProps m (m.requestedMode.getD m.defaultMode) else [])
  ++ [⟨m.primaryPlaneId, "FB_ID", PropVal.framebuffer (some fb)⟩]
  ++ fenceProps m fenceFd

/-- `Monitor::swap_buffers` (`src/monitor.rs` lines 300–473).  As defined in
the source this function takes only the card: it builds its own local atomic
request and submits its own atomic commit with `PAGE_FLIP_EVENT` plus
`ALLOW_MODESET` only when a mode set is needed.  Returns the monitor after
the call (mutations before an error persist, as through `&mut self`), the
effect log, and the error if any. -/
def Monitor.swap_buffers {T : Type} (m : Monitor T) (env : SwapEnv) :
    Monitor T × List Effect × Option MSetupError :=
  if env.makeCurrentOk then
    match env.swapBo with
    | none => (m, [], some (MSetupError.drmError ("Failed to swap buffers")))
    | some bo =>
      let fx0 := cleanupFx m
      let m1 : Monitor T := { m with previousFenceFd := none, previousSync := none }
      match env.fenceRes with
      | none => (m1, fx0, some (MSetupError.drmError ("Failed to create fence")))
      | some (fenceFd, sync) =>
        let fx1 := fx0 ++ [Effect.createFence fenceFd sync]
        match env.fbRes with
        | none => (m1, fx1, some (MSetupError.drmError ("Failed to add framebuffer")))
        | some fb =>
          let fx2 := fx1 ++ [Effect.addFramebuffer bo fb]
          if m.needs_mode_set && !env.blobOk then
            (m1, fx2, some (MSetupError.drmError ("Failed to create mode blob")))
          else
            let fx3 := fx2 ++ [Effect.atomicCommit true m.needs_mode_set (swapReq m fenceFd fb)]
            if env.commitOk then
              let m2 : Monitor T :=
                { m1 with previousBo := some bo, previousFenceFd := some fenceFd,
                          previousSync := some sync, firstFrame := false, canRender := false }
              (if m.needs_mode_set then m2.mark_mode_set else m2, fx3, none)
            else (m1, fx3, some (MSetupError.drmError ("Failed to commit")))
  else (m, [], some MSetupError.glesContextError)

theorem swap_good_fields {T : Type} (m : Monitor T) (env : SwapEnv)
    (bo : Nat) (fd : Int) (sy : Nat) (fb : Nat)
    (h1 : env.makeCurrentOk = true) (h2 : env.swapBo = some bo)
    (h3 : env.fenceRes = some (fd, sy)) (h4 : env.fbRes = some fb)
    (h5 : env.blobOk = true) (h6 : env.commitOk = true) :
    (m.swap_buffers env).2.2 = none
    ∧ (m.swap_buffers env).1.previousBo = some bo
    ∧ (m.swap_buffers env).1.previousFenceFd = some fd
    ∧ (m.swap_buffers env).1.previousSync = some sy
    ∧ (m.swap_buffers env).1.canRender = false
    ∧ (m.swap_buffers env).1.firstFrame = false
    ∧ (m.swap_buffers env).1.currentMode
        = (if m.needs_mode_set then m.requestedMode else m.currentMode)
    ∧ (m.swap_buffers env).1.requestedMode = m.requestedMode
    ∧ (m.swap_buffers env).1.connectorId = m.connectorId
    ∧ (m.swap_buffers env).2.1
        = cleanupFx m ++ [Effect.createFence fd sy, Effect.addFramebuffer bo fb,
            Effect.atomicCommit true m.needs_mode_set (swapReq m fd fb)] := by
  cases hn : m.needs_mode_set <;>
    simp [Monitor.swap_buffers, h1, h2, h3, h4, h5, h6, hn, Monitor.mark_mode_set]

theorem good_parts (env : SwapEnv) (hg : env.good = true) :
    env.makeCurrentOk = true ∧ (∃ bo, env.swapBo = some bo)
    ∧ (∃ fd sy, env.fenceRes = some (fd, sy)) ∧ (∃ fb, env.fbRes = some fb)
    ∧ env.blobOk = true ∧ env.commitOk = true := by
  simp only [SwapEnv.good, Bool.and_eq_true, Option.isSome_iff_exists] at hg
  obtain ⟨⟨⟨⟨⟨hmc, hbo⟩, hfence⟩, hfb⟩, hblob⟩, hcommit⟩ := hg
  refine ⟨hmc, hbo, ?_, hfb, hblob, hcommit⟩
  obtain ⟨p, hp⟩ := hfence
  exact ⟨p.1, p.2, by simpa using hp⟩

/-! ## Fence/sync lifecycle across successive commits (C6) -/

/-- A sequence of `Monitor::swap_buffers` calls, one per environment,
chaining the monitor state and concatenating the effect logs (the trace of
`N` frames on one monitor). -/
def Monitor.swapN {T : Type} (m : Monitor T) : List SwapEnv → Monitor T × List Effect
  | [] => (m, [])
  | env :: rest =>
      let r := m.swap_buffers env
      let r2 := r.1.swapN rest
      (r2.1, r.2.1 ++ r2.2)

theorem swapN_closes_head {T : Type} (m : Monitor T) (f : Int) (s : Nat)
    (env : SwapEnv) (rest : List SwapEnv)
    (hf : m.previousFenceFd = some f) (hs : m.previousSync = some s)
    (hg : env.good = true) :
    Effect.closeFd f ∈ (m.swapN (env :: rest)).2
    ∧ Effect.destroySync s ∈ (m.swapN (env :: rest)).2 := by
  obtain ⟨h1, ⟨bo, h2⟩, ⟨fd, sy, h3⟩, ⟨fb, h4⟩, h5, h6⟩ := good_parts env hg
  have hlog := (swap_good_fields m env bo fd sy fb h1 h2 h3 h4 h5 h6).2.2.2.2.2.2.2.2.2
  constructor <;> simp [Monitor.swapN, hlog, cleanupFx, hf, hs]

theorem swapN_closes_prev_append {T : Type} (m : Monitor T) (f : Int) (s : Nat)
    (rest : List SwapEnv) (lastEnv : SwapEnv)
    (hf : m.previousFenceFd = some f) (hs : m.previousSync = some s)
    (hg : ∀ env ∈ rest, env.good = true) (hl : lastEnv.good = true) :
    Effect.closeFd f ∈ (m.swapN (rest ++ [lastEnv])).2
    ∧ Effect.destroySync s ∈ (m.swapN (rest ++ [lastEnv])).2 := by
  cases rest with
  | nil => simpa using swapN_closes_head m f s lastEnv [] hf hs hl
  | cons e3 r3 =>
      simpa using swapN_closes_head m f s e3 (r3 ++ [lastEnv]) hf hs (hg e3 (by simp))

theorem swapN_last_state {T : Type} (envs : List SwapEnv) (lastEnv : SwapEnv)
    (fd : Int) (sy : Nat) :
    ∀ m0 : Monitor T, (∀ env ∈ envs, env.good = true) → lastEnv.good = true →
      lastEnv.fenceRes = some (fd, sy) →
      (m0.swapN (envs ++ [lastEnv])).1.previousFenceFd = some fd
      ∧ (m0.swapN (envs ++ [lastEnv])).1.previousSync = some sy := by
  induction envs with
  | nil =>
      intro m0 _ hl hfr
      obtain ⟨h1, ⟨bo, h2⟩, ⟨fd2, sy2, h3⟩, ⟨fb, h4⟩, h5, h6⟩ := good_parts lastEnv hl
      have h := swap_good_fields m0 lastEnv bo fd sy fb h1 h2 hfr h4 h5 h6
      constructor
      · simpa [Monitor.swapN] using h.2.2.1
      · simpa [Monitor.swapN] using h.2.2.2.1
  | cons env rest ih =>
      intro m0 hg hl hfr
      have := ih (m0.swap_buffers env).1 (fun e he => hg e (by simp [he])) hl hfr
      constructor
      · simpa [Monitor.swapN] using this.1
      · simpa [Monitor.swapN] using this.2

theorem swapN_all_closed {T : Type} (envs : List SwapEnv) (lastEnv : SwapEnv) :
    ∀ m0 : Monitor T, (∀ env ∈ envs, env.good = true) → lastEnv.good = true →
      ∀ env ∈ envs, ∀ (fd : Int) (sy : Nat), env.fenceRes = some (fd, sy) →
        Effect.closeFd fd ∈ (m0.swapN (envs ++ [lastEnv])).2
        ∧ Effect.destroySync sy ∈ (m0.swapN (envs ++ [lastEnv])).2 := by
  induction envs with
  | nil => intro m0 _ _ env he; simp at he
  | cons env rest ih =>
      intro m0 hg hl env2 he2 fd sy hfr
      have hgood := hg env (by simp)
      obtain ⟨h1, ⟨bo, h2⟩, ⟨fd1, sy1, h3⟩, ⟨fb, h4⟩, h5, h6⟩ := good_parts env hgood
      rcases List.mem_cons.mp he2 with heq | hmem
      · subst heq
        have hps : fd1 = fd ∧ sy1 = sy := by
          have := h3.symm.trans hfr
          simpa [Prod.ext_iff] using this
        obtain ⟨hfd, hsy⟩ := hps
        rw [hfd, hsy] at h3
        have hfields := swap_good_fields m0 env2 bo fd sy fb h1 h2 h3 h4 h5 h6
        have hc := swapN_closes_prev_append (m0.swap_buffers env2).1 fd sy rest lastEnv
          hfields.2.2.1 hfields.2.2.2.1 (fun e he => hg e (by simp [he])) hl
        constructor
        · simp only [List.cons_append, Monitor.swapN, List.mem_append]
          exact Or.inr hc.1
        · simp only [List.cons_append, Monitor.swapN, List.mem_append]
          exact Or.inr hc.2
      · have := ih (m0.swap_buffers env).1 (fun e he => hg e (by simp [he])) hl env2 hmem fd sy hfr
        constructor
        · simp only [List.cons_append, Monitor.swapN, List.mem_append]
          exact Or.inr this.1
        · simp only [List.cons_append, Monitor.swapN, List.mem_append]
          exact Or.inr this.2

/-- C6: each `Monitor::swap_buffers` call closes the previously stored fence
descriptor and destroys the previously stored EGL sync (when present)
before creating and storing the new ones — the per-call effect log is
exactly close, destroy, create-fence, add-framebuffer, commit — so after a
run of successful commits the monitor holds exactly the fence descriptor
and sync of the most recent commit, and every earlier commit's fence and
sync (in particular commit N-1's) have been released into the log. -/
theorem fence_lifecycle (m0 : Monitor Unit) (envs : List SwapEnv) (lastEnv : SwapEnv)
    (hg : ∀ env ∈ envs, env.good = true) (hl : lastEnv.good = true) :
    (∀ (m : Monitor Unit) (f fd : Int) (s sy bo fb : Nat) (env : SwapEnv),
        m.previousFenceFd = some f → m.previousSync = some s →
        env.makeCurrentOk = true → env.swapBo = some bo →
        env.fenceRes = some (fd, sy) → env.fbRes = some fb →
        env.blobOk = true → env.commitOk = true →
        (m.swap_buffers env).2.1
          = [Effect.closeFd f, Effect.destroySync s, Effect.createFence fd sy,
             Effect.addFramebuffer bo fb,
             Effect.atomicCommit true m.needs_mode_set (swapReq m fd fb)]
        ∧ (m.swap_buffers env).1.previousFenceFd = some fd
        ∧ (m.swap_buffers env).1.previousSync = some sy)
    ∧ (∀ (fd : Int) (sy : Nat), lastEnv.fenceRes = some (fd, sy) →
        (m0.swapN (envs ++ [lastEnv])).1.previousFenceFd = some fd
        ∧ (m0.swapN (envs ++ [lastEnv])).1.previousSync = some sy)
    ∧ (∀ env ∈ envs, ∀ (fd : Int) (sy : Nat), env.fenceRes = some (fd, sy) →
        Effect.closeFd fd ∈ (m0.swapN (envs ++ [lastEnv])).2
        ∧ Effect.destroySync sy ∈ (m0.swapN (envs ++ [lastEnv])).2) := by
  refine ⟨?_, ?_, ?_⟩
  · intro m f fd s sy bo fb env hf hs h1 h2 h3 h4 h5 h6
    have h := swap_good_fields m env bo fd sy fb h1 h2 h3 h4 h5 h6
    refine ⟨?_, h.2.2.1, h.2.2.2.1⟩
    rw [h.2.2.2.2.2.2.2.2.2]
    simp [cleanupFx, hf, hs]
  · intro fd sy hfr
    exact swapN_last_state envs lastEnv fd sy m0 hg hl hfr
  · intro env he fd sy hfr
    exact swapN_all_closed envs lastEnv m0 hg hl env he fd sy hfr

/-! ## Card model, monitor setup and discovery -/

/-- DRM `PlaneType::Primary as u32`. -/
def planeTypePrimary : Nat := 1

/-- DRM `PlaneType::Cursor as u32`. -/
def planeTypeCursor : Nat := 2

/-- The DRM device as the discovery and setup paths observe it: resource
lists, per-plane compatibility and `"type"` property, per-connector state,
and whether the fallible setup steps (get_crtc, get_encoder, GLES-context
creation) succeed. -/
structure CardModel where
  crtcs : List Nat
  getCrtcOk : Nat → Bool
  planes : List Nat
  planeCompat : Nat → Nat → Bool
  planeType : Nat → Option Nat
  connectorModes : Nat → List Mode
  connectorConnected : Nat → Bool
  connectorEncoders : Nat → List Nat
  encoderPossibleCrtcs : Nat → List Nat
  getEncoderOk : Nat → Bool
  glesOk : Bool
  crtcHasInFence : Bool
  planeHasInFence : Bool

/-- `Monitor::setup` (`src/monitor.rs` lines 98–229).  As defined in the
source it takes no resource allocation: it picks the FIRST CRTC of the
device that `get_crtc` resolves, and the first compatible primary/cursor
plane, regardless of what other monitors use.  The user context constructor
is invoked once with the monitor's GL function table (modelled by an opaque
table identifier, here the connector id); the returned list records the
constructor calls made, each entry being the argument passed. -/
def Monitor.setup {T : Type} (card : CardModel) (cid : Nat) (ctor : Nat → T) :
    Except MSetupError (Monitor T × List Nat) :=
  match (card.crtcs.filter card.getCrtcOk).head? with
  | none => Except.error MSetupError.noCRTCFound
  | some crtcH =>
    match (card.connectorModes cid).head? with
    | none => Except.error MSetupError.noModesFound
    | some dm =>
      match card.planes.find? (fun p =>
          card.planeCompat p crtcH && card.planeType p == some planeTypePrimary) with
      | none => Except.error MSetupError.noPrimaryPlaneFound
      | some primaryP =>
        let cursorP := card.planes.find? (fun p =>
          card.planeCompat p crtcH && card.planeType p == some planeTypeCursor)
        if card.glesOk then
          Except.ok
            ({ connectorId := cid, crtcHandle := crtcH, defaultMode := dm,
               requestedMode := none, currentMode := none,
               primaryPlaneId := primaryP, cursorPlaneId := cursorP,
               canRender := true, wasDrawn := false,
               previousBo := none, previousFenceFd := none, previousSync := none,
               crtcHasInFence := card.crtcHasInFence,
               planeHasInFence := card.planeHasInFence,
               firstFrame := true, userContext := ctor cid }, [cid])
        else Except.error MSetupError.glesContextError

/-- The allocation the orchestrator computes per connector
(`EasyDRM::allocate_monitor_resources`). -/
structure MonitorResourceAllocation where
  crtcHandle : Nat
  primaryPlane : Nat
  cursorPlane : Option Nat
deriving DecidableEq

/-- `EasyDRM::crtc_candidates_for_connector` (`src/lib.rs` lines 429–454):
for each encoder, its possible CRTCs minus the used ones, de-duplicated
preserving order. -/
def crtc_candidates_for_connector (card : CardModel) (cid : Nat)
    (usedCrtcs : List Nat) : List Nat :=
  (card.connectorEncoders cid).foldl (fun acc enc =>
    if card.getEncoderOk enc then
      (card.encoderPossibleCrtcs enc).foldl (fun acc2 crtcH =>
        if usedCrtcs.contains crtcH then acc2
        else if acc2.contains crtcH then acc2
        else acc2 ++ [crtcH]) acc
    else acc) []

/-- `EasyDRM::find_plane_for_crtc` (`src/lib.rs` lines 456–483): first
unused plane compatible with the CRTC whose `"type"` matches. -/
def find_plane_for_crtc (card : CardModel) (crtcH : Nat) (ptype : Nat)
    (used : List Nat) : Option Nat :=
  card.planes.find? (fun p =>
    !(used.contains p) && card.planeCompat p crtcH && card.planeType p == some ptype)

/-- `EasyDRM::allocate_monitor_resources` (`src/lib.rs` lines 378–427). -/
def allocate_monitor_resources (card : CardModel) (cid : Nat)
    (usedCrtcs usedPrimary usedCursor : List Nat) :
    Except MSetupError MonitorResourceAllocation :=
  if card.connectorConnected cid then
    match (crtc_candidates_for_connector card cid usedCrtcs).find? card.getCrtcOk with
    | none => Except.error MSetupError.noCRTCFound
    | some crtcH =>
      match find_plane_for_crtc card crtcH planeTypePrimary usedPrimary with
      | none => Except.error MSetupError.noPrimaryPlaneFound
      | some pp =>
        Except.ok { crtcHandle := crtcH, primaryPlane := pp,
                    cursorPlane := find_plane_for_crtc card crtcH planeTypeCursor usedCursor }
  else Except.error MSetupError.notConnected

/-- Largest element of a list, `None` when empty (`keys().max()`). -/
def listMax? : List Nat → Option Nat
  | [] => none
  | x :: xs =>
      match listMax? xs with
      | none => some x
      | some y => some (max x y)

/-- `Monitor::active_mode`: `requested_mode` if set, else `default_mode`. -/
def Monitor.active_mode {T : Type} (m : Monitor T) : Mode :=
  m.requestedMode.getD m.defaultMode

/-- The `EasyDRM<T>` orchestrator state the claims concern: the monitor map
(as a list in iteration order) and the refresh-rate grouping state.  The
group map is represented as the membership function `Hz → connector ids`. -/
structure EasyDRM (T : Type) where
  monitors : List (Monitor T)
  refreshRateGroups : Nat → List Nat
  fastestGroupRefresh : Option Nat
  fastestGroupPending : List Nat
  shouldUpdateFlag : Bool

/-- `EasyDRM::reset_fastest_group_pending` (`src/lib.rs` lines 252–263). -/
def EasyDRM.reset_fastest_group_pending {T : Type} (e : EasyDRM T) : EasyDRM T :=
  let pending := match e.fastestGroupRefresh with
    | some r => e.refreshRateGroups r
    | none => []
  { e with fastestGroupPending := pending,
           shouldUpdateFlag := pending.isEmpty && e.fastestGroupRefresh.isSome }

/-- `EasyDRM::mark_fast_group_commit` (`src/lib.rs` lines 265–270): remove
the connector from the pending set; when the removal empties it, raise the
flag. -/
def EasyDRM.mark_fast_group_commit {T : Type} (e : EasyDRM T) (cid : Nat) : EasyDRM T :=
  if e.fastestGroupPending.contains cid then
    let p := e.fastestGroupPending.erase cid
    { e with fastestGroupPending := p,
             shouldUpdateFlag := if p.isEmpty then true else e.shouldUpdateFlag }
  else e

/-- `EasyDRM::should_update` (`src/lib.rs` lines 639–647). -/
def EasyDRM.should_update {T : Type} (e : EasyDRM T) : Bool × EasyDRM T :=
  if e.shouldUpdateFlag then
    (true, EasyDRM.reset_fastest_group_pending { e with shouldUpdateFlag := false })
  else (false, e)

/-- `EasyDRM::update_refresh_rate_groups` (`src/lib.rs` lines 237–250). -/
def EasyDRM.update_refresh_rate_groups {T : Type} (e : EasyDRM T) : EasyDRM T :=
  let groups := fun r =>
    (e.monitors.filter (fun m => m.active_mode.vrefresh == r)).map (fun m => m.connectorId)
  let fastest := listMax? (e.monitors.map (fun m => m.active_mode.vrefresh))
  EasyDRM.reset_fastest_group_pending
    { e with refreshRateGroups := groups, fastestGroupRefresh := fastest }

/-- `EasyDRM::current_resource_usage`: used CRTCs, primary planes, cursor
planes of the live monitors. -/
def current_resource_usage {T : Type} (ms : List (Monitor T)) :
    List Nat × List Nat × List Nat :=
  (ms.map (fun m => m.crtcHandle), ms.map (fun m => m.primaryPlaneId),
   ms.filterMap (fun m => m.cursorPlaneId))

/-- The discovery loop of `EasyDRM::discover_monitors` (`src/lib.rs` lines
185–229): per connector, skip if already owned, run the allocator (skipping
the connector on failure), then run `Monitor::setup` and insert the result,
updating the running used-resource sets.  `Monitor::setup` as defined does
not accept the computed allocation — the orchestrator's call site cannot
forward it — so the allocation result is dropped. -/
def discoverLoop {T : Type} (card : CardModel) (ctor : Nat → T) :
    List Nat → List (Monitor T) → List Nat → List Nat → List Nat → List (Monitor T)
  | [], ms, _, _, _ => ms
  | cid :: rest, ms, uc, up, ucur =>
      if (ms.map (fun m => m.connectorId)).contains cid then
        discoverLoop card ctor rest ms uc up ucur
      else
        match allocate_monitor_resources card cid uc up ucur with
        | Except.error _ => discoverLoop card ctor rest ms uc up ucur
        | Except.ok _alloc =>
            match Monitor.setup card cid ctor with
            | Except.error _ => discoverLoop card ctor rest ms uc up ucur
            | Except.ok (m, _) =>
                discoverLoop card ctor rest (ms ++ [m]) (uc ++ [m.crtcHandle])
                  (up ++ [m.primaryPlaneId])
                  (ucur ++ (match m.cursorPlaneId with
                    | some c => [c]
                    | none => []))

/-- `EasyDRM::discover_monitors`, followed by the group refresh it performs. -/
def EasyDRM.discover_monitors {T : Type} (card : CardModel) (connectors : List Nat)
    (ctor : Nat → T) (e : EasyDRM T) : EasyDRM T :=
  let u := current_resource_usage e.monitors
  let ms := discoverLoop card ctor connectors e.monitors u.1 u.2.1 u.2.2
  EasyDRM.update_refresh_rate_groups { e with monitors := ms }

/-! ## Concrete device used by the counterexamples and witnesses -/

/-- 1920x1080@60. -/
def demoMode : Mode := { width := 1920, height := 1080, vrefresh := 60 }

/-- A card with two CRTCs (10, 11), two primary planes (20, 21) and two
cursor planes (22, 23), all mutually compatible; two connectors (1, 2),
both connected with preferred mode 1920x1080@60. -/
def demoCard : CardModel :=
  { crtcs := [10, 11],
    getCrtcOk := fun _ => true,
    planes := [20, 21, 22, 23],
    planeCompat := fun _ _ => true,
    planeType := fun p =>
      if p == 20 || p == 21 then some planeTypePrimary
      else if p == 22 || p == 23 then some planeTypeCursor
      else none,
    connectorModes := fun _ => [demoMode],
    connectorConnected := fun _ => true,
    connectorEncoders := fun cid => [cid],
    encoderPossibleCrtcs := fun _ => [10, 11],
    getEncoderOk := fun _ => true,
    glesOk := true,
    crtcHasInFence := true,
    planeHasInFence := false }

/-- The empty orchestrator state before discovery. -/
def emptyEasyDRM : EasyDRM Unit :=
  { monitors := [], refreshRateGroups := fun _ => [],
    fastestGroupRefresh := none, fastestGroupPending := [],
    shouldUpdateFlag := false }

/-- The monitor `Monitor::setup` produces for connector 1 of `demoCard`. -/
def freshMon : Monitor Unit :=
  { connectorId := 1, crtcHandle := 10, defaultMode := demoMode,
    requestedMode := none, currentMode := none, primaryPlaneId := 20,
    cursorPlaneId := some 22, canRender := true, wasDrawn := false,
    previousBo := none, previousFenceFd := none, previousSync := none,
    crtcHasInFence := true, planeHasInFence := false, firstFrame := true,
    userContext := () }

/-- An all-success environment: buffer object 1, fence fd 5, sync 9,
framebuffer 3. -/
def goodEnvA : SwapEnv :=
  { makeCurrentOk := true, swapBo := some 1, fenceRes := some (5, 9),
    fbRes := some 3, blobOk := true, commitOk := true }

/-- A second all-success environment: buffer object 2, fence fd 6, sync 10,
framebuffer 4. -/
def goodEnvB : SwapEnv :=
  { makeCurrentOk := true, swapBo := some 2, fenceRes := some (6, 10),
    fbRes := some 4, blobOk := true, commitOk := true }

theorem fence_lifecycle_witness :
    (freshMon.swapN [goodEnvA, goodEnvB]).1.previousFenceFd = some 6
    ∧ (freshMon.swapN [goodEnvA, goodEnvB]).1.previousSync = some 10
    ∧ Effect.closeFd 5 ∈ (freshMon.swapN [goodEnvA, goodEnvB]).2
    ∧ Effect.destroySync 9 ∈ (freshMon.swapN [goodEnvA, goodEnvB]).2 := by
  have h := fence_lifecycle freshMon [goodEnvA] goodEnvB (by decide) (by decide)
  exact ⟨(h.2.1 6 10 rfl).1, (h.2.1 6 10 rfl).2,
    (h.2.2 goodEnvA (by simp) 5 9 rfl).1, (h.2.2 goodEnvA (by simp) 5 9 rfl).2⟩

/-- C2 (code bug): on a freshly set-up monitor both `requested_mode` and
`current_mode` are `None`, so `needs_mode_set()` is false and the FIRST
successful commit performs no mode-set at all: the commit is submitted
without `ALLOW_MODESET`, its request has no `MODE_ID`/`ACTIVE` entries, and
afterwards `current_mode` is still `None`, not the default mode (the code's
own comment says the mode-set block runs on "first frame or mode change").
`can_render == false` does hold after the commit. -/
theorem first_commit_skips_mode_set :
    Monitor.setup demoCard 1 (fun _ => ()) = Except.ok (freshMon, [1])
    ∧ freshMon.requestedMode = none
    ∧ freshMon.currentMode = none
    ∧ freshMon.firstFrame = true
    ∧ Monitor.needs_mode_set freshMon = false
    ∧ (freshMon.swap_buffers goodEnvA).2.2 = none
    ∧ (freshMon.swap_buffers goodEnvA).1.currentMode = none
    ∧ (freshMon.swap_buffers goodEnvA).1.canRender = false
    ∧ (freshMon.swap_buffers goodEnvA).2.1
        = [Effect.createFence 5 9, Effect.addFramebuffer 1 3,
           Effect.atomicCommit true false
             [⟨20, "FB_ID", PropVal.framebuffer (some 3)⟩,
              ⟨10, "IN_FENCE_FD", PropVal.sRange 5⟩]]
    ∧ (freshMon.swap_buffers goodEnvA).1.currentMode ≠ some freshMon.defaultMode := by
  refine ⟨rfl, rfl, rfl, rfl, rfl, rfl, rfl, rfl, rfl, by decide⟩

/-- C3 (code bug): discovery over two connected connectors produces two
live monitors with the SAME CRTC handle (10), the SAME primary plane (20)
and the SAME cursor plane (22), because `Monitor::setup` picks the first
CRTC/planes of the device and cannot receive the orchestrator's allocation;
the allocator itself, given the first monitor's used resources, would have
chosen the disjoint CRTC 11 / planes 21, 23 for connector 2. -/
theorem monitors_share_crtc_and_primary_plane :
    ((EasyDRM.discover_monitors demoCard [1, 2] (fun _ => ()) emptyEasyDRM).monitors.map
        (fun m => (m.connectorId, m.crtcHandle, m.primaryPlaneId, m.cursorPlaneId)))
      = [(1, 10, 20, some 22), (2, 10, 20, some 22)]
    ∧ allocate_monitor_resources demoCard 2 [10] [20] [22]
      = Except.ok { crtcHandle := 11, primaryPlane := 21, cursorPlane := some 23 } := by
  exact ⟨rfl, rfl⟩

/-- C8 (code bug): `Monitor::setup` invokes the user context constructor
exactly once, but the constructor it accepts — and the single argument it
passes — is only the GL function table: the chosen mode's width and height
are not supplied (the orchestrator in `src/lib.rs` stores and documents a
`(gl, width, height)` constructor, which this signature cannot receive).
Here the constructor receives table id 1 and the produced context is
`ctor 1 = 101`; the call log has exactly one entry, `[1]`. -/
theorem context_constructor_called_once_gl_only :
    (Monitor.setup demoCard 1 (fun gl => gl + 100)).toOption.map
        (fun r => (r.2, r.1.userContext)) = some ([1], 101) := by
  rfl

/-! ## Orchestrator frame batch (`EasyDRM::swap_buffers`, `src/lib.rs` 585–608)

The orchestrator builds a shared atomic request and iterates the drawn
monitors.  `Monitor::swap_buffers` as defined accepts no request parameter
and submits its own commit, so nothing reaches the shared request; after the
loop the orchestrator calls `mark_fast_group_commit` for every committed
connector and only then submits the shared (empty) request with
`PAGE_FLIP_EVENT | ALLOW_MODESET`. -/

/-- Is this effect an atomic-commit submission? -/
def isCommitEffect : Effect → Bool
  | Effect.atomicCommit _ _ _ => true
  | _ => false

/-- Number of atomic commits submitted in an effect log. -/
def countCommits (l : List Effect) : Nat :=
  (l.filter isCommitEffect).length

theorem countCommits_append (a b : List Effect) :
    countCommits (a ++ b) = countCommits a + countCommits b := by
  simp [countCommits]

theorem countCommits_cleanup {T : Type} (m : Monitor T) :
    countCommits (cleanupFx m) = 0 := by
  cases hf : m.previousFenceFd <;> cases hs : m.previousSync <;>
    simp [cleanupFx, hf, hs, countCommits, isCommitEffect]

/-- Result of the loop over the drawn monitors inside
`EasyDRM::swap_buffers`: updated monitor list, accumulated effects, the
`committed` connector list, and an error if a monitor swap failed (which
aborts the method before marking and before the aggregate commit). -/
structure SwapLoopResult (T : Type) where
  monitors : List (Monitor T)
  fx : List Effect
  committed : List Nat
  err : Option MSetupError

/-- The `for (&connector_id, monitor) in self.monitors.iter_mut()` loop:
each drawn monitor swaps (submitting its own commit), has `was_drawn`
cleared, and its connector recorded. -/
def swapLoop {T : Type} (envf : Nat → SwapEnv) :
    List (Monitor T) → SwapLoopResult T
  | [] => ⟨[], [], [], none⟩
  | m :: rest =>
      if m.wasDrawn then
        let r := m.swap_buffers (envf m.connectorId)
        match r.2.2 with
        | some err => ⟨r.1 :: rest, r.2.1, [], some err⟩
        | none =>
            let r2 := swapLoop envf rest
            ⟨{ r.1 with wasDrawn := false } :: r2.monitors, r.2.1 ++ r2.fx,
              m.connectorId :: r2.committed, r2.err⟩
      else
        let r2 := swapLoop envf rest
        ⟨m :: r2.monitors, r2.fx, r2.committed, r2.err⟩

/-- `EasyDRM::swap_buffers`: run the loop, then mark every committed
connector in the fast-group state, then submit the shared request (which
received no properties) with `PAGE_FLIP_EVENT | ALLOW_MODESET`;
`orchCommitOk` is the outcome of that final `atomic_commit`. -/
def EasyDRM.swap_buffers {T : Type} (e : EasyDRM T) (envf : Nat → SwapEnv)
    (orchCommitOk : Bool) : EasyDRM T × List Effect × Option MSetupError :=
  let r := swapLoop envf e.monitors
  let e1 : EasyDRM T := { e with monitors := r.monitors }
  match r.err with
  | some err => (e1, r.fx, some err)
  | none =>
      let e2 := r.committed.foldl EasyDRM.mark_fast_group_commit e1
      let fx := r.fx ++ [Effect.atomicCommit true true []]
      if orchCommitOk then (e2, fx, none)
      else (e2, fx, some (MSetupError.drmError ("Failed to commit")))

theorem swapLoop_good {T : Type} (envf : Nat → SwapEnv) (ms : List (Monitor T))
    (hg : ∀ m ∈ ms, m.wasDrawn = true → (envf m.connectorId).good = true) :
    (swapLoop envf ms).err = none
    ∧ countCommits (swapLoop envf ms).fx
        = (ms.filter (fun m => m.wasDrawn)).length
    ∧ (swapLoop envf ms).committed
        = (ms.filter (fun m => m.wasDrawn)).map (fun m => m.connectorId) := by
  induction ms with
  | nil => simp [swapLoop, countCommits]
  | cons m rest ih =>
      have ihr := ih (fun m2 h2 hd => hg m2 (by simp [h2]) hd)
      by_cases hd : m.wasDrawn = true
      · have hgood := hg m (by simp) hd
        obtain ⟨h1, ⟨bo, h2⟩, ⟨fd, sy, h3⟩, ⟨fb, h4⟩, h5, h6⟩ := good_parts _ hgood
        have hf := swap_good_fields m (envf m.connectorId) bo fd sy fb h1 h2 h3 h4 h5 h6
        have hcount : countCommits ((m.swap_buffers (envf m.connectorId)).2.1) = 1 := by
          rw [hf.2.2.2.2.2.2.2.2.2, countCommits_append, countCommits_cleanup]
          rfl
        refine ⟨?_, ?_, ?_⟩ <;>
          simp [swapLoop, hd, hf.1, countCommits_append, hcount,
            ihr.1, ihr.2.1, ihr.2.2, Nat.add_comm]
      · have hd2 : m.wasDrawn = false := by simpa using hd
        refine ⟨?_, ?_, ?_⟩ <;> simp [swapLoop, hd2, ihr.1, ihr.2.1, ihr.2.2]

/-- The monitor of `freshMon` with the dirty flag raised, as after
`make_current()`. -/
def drawnMon : Monitor Unit := { freshMon with wasDrawn := true }

/-- Orchestrator state holding one drawn monitor on connector 1, which is
the sole member of the fastest (60 Hz) group. -/
def oneMonState : EasyDRM Unit :=
  { monitors := [drawnMon],
    refreshRateGroups := fun r => if r == 60 then [1] else [],
    fastestGroupRefresh := some 60,
    fastestGroupPending := [1],
    shouldUpdateFlag := false }

/-- C1 counterexample: with a single drawn monitor and every kernel call
succeeding, one `EasyDRM::swap_buffers` call submits TWO atomic commits,
not one: the monitor's own commit (here with `ALLOW_MODESET` clear, since
no mode set is pending, and carrying the `FB_ID`/fence properties) and the
orchestrator's aggregate commit of the shared request, which stayed empty. -/
theorem swap_buffers_single_commit_cex :
    countCommits ((oneMonState.swap_buffers (fun _ => goodEnvA) true).2.1) = 2
    ∧ countCommits ((oneMonState.swap_buffers (fun _ => goodEnvA) true).2.1) ≠ 1
    ∧ Effect.atomicCommit true false
        [⟨20, "FB_ID", PropVal.framebuffer (some 3)⟩,
         ⟨10, "IN_FENCE_FD", PropVal.sRange 5⟩]
      ∈ (oneMonState.swap_buffers (fun _ => goodEnvA) true).2.1
    ∧ Effect.atomicCommit true true []
      ∈ (oneMonState.swap_buffers (fun _ => goodEnvA) true).2.1 := by
  refine ⟨rfl, by decide, by decide, by decide⟩

/-- C1 (amended): per orchestrator `swap_buffers` call with `k` drawn
monitors (all kernel calls succeeding), `k + 1` atomic commits are
submitted — one inside each drawn monitor's `Monitor::swap_buffers`, plus a
final aggregate commit with `PAGE_FLIP_EVENT | ALLOW_MODESET` whose shared
request carries no properties, since `Monitor::swap_buffers` takes no
request parameter and contributes nothing to it. -/
theorem swap_buffers_commit_count (e : EasyDRM Unit) (envf : Nat → SwapEnv)
    (ok : Bool)
    (hg : ∀ m ∈ e.monitors, m.wasDrawn = true → (envf m.connectorId).good = true) :
    countCommits (e.swap_buffers envf ok).2.1
      = (e.monitors.filter (fun m => m.wasDrawn)).length + 1
    ∧ ((e.swap_buffers envf ok).2.1).getLast?
      = some (Effect.atomicCommit true true []) := by
  have hl := swapLoop_good envf e.monitors hg
  constructor
  · cases ok <;>
      · simp only [EasyDRM.swap_buffers, hl.1, Bool.false_eq_true, if_false, if_true]
        rw [countCommits_append, hl.2.1]
        rfl
  · cases ok <;> simp [EasyDRM.swap_buffers, hl.1]

theorem swap_buffers_commit_count_witness :
    countCommits ((oneMonState.swap_buffers (fun _ => goodEnvA) true).2.1) = 2
    ∧ ((oneMonState.swap_buffers (fun _ => goodEnvA) true).2.1).getLast?
      = some (Effect.atomicCommit true true []) := by
  have h := swap_buffers_commit_count oneMonState (fun _ => goodEnvA) true (by decide)
  exact ⟨h.1.trans rfl, h.2⟩

/-- The refresh-rate grouping substate (`fastest_group_pending`,
`should_update_flag`). -/
def groupState {T : Type} (e : EasyDRM T) : List Nat × Bool :=
  (e.fastestGroupPending, e.shouldUpdateFlag)

theorem groupState_mark_congr {T : Type} (e1 e2 : EasyDRM T) (c : Nat)
    (h : groupState e1 = groupState e2) :
    groupState (e1.mark_fast_group_commit c) = groupState (e2.mark_fast_group_commit c) := by
  have hp : e1.fastestGroupPending = e2.fastestGroupPending := congrArg Prod.fst h
  have hf : e1.shouldUpdateFlag = e2.shouldUpdateFlag := congrArg Prod.snd h
  have hcc : (c ∈ e1.fastestGroupPending) ↔ (c ∈ e2.fastestGroupPending) := by rw [hp]
  by_cases hc : c ∈ e2.fastestGroupPending
  · have hc1 : c ∈ e1.fastestGroupPending := hcc.mpr hc
    simp [EasyDRM.mark_fast_group_commit, groupState, hp, hf, hc, hc1]
  · have hc1 : c ∉ e1.fastestGroupPending := fun hx => hc (hcc.mp hx)
    simp [EasyDRM.mark_fast_group_commit, groupState, hp, hf, hc, hc1]

theorem groupState_foldl_congr {T : Type} (cids : List Nat) :
    ∀ e1 e2 : EasyDRM T, groupState e1 = groupState e2 →
      groupState (cids.foldl EasyDRM.mark_fast_group_commit e1)
        = groupState (cids.foldl EasyDRM.mark_fast_group_commit e2) := by
  induction cids with
  | nil => intro e1 e2 h; simpa using h
  | cons c rest ih =>
      intro e1 e2 h
      exact ih _ _ (groupState_mark_congr e1 e2 c h)

/-- C4 counterexample: with one drawn monitor whose own swap succeeds but
the orchestrator's atomic commit failing, `EasyDRM::swap_buffers` returns
the commit error — yet `fastest_group_pending` went from `[1]` to `[]` and
`should_update_flag` from `false` to `true`: the grouping state is NOT left
unchanged on a failed commit, because the marks are applied before the
commit is submitted. -/
theorem mark_before_commit_cex :
    (oneMonState.swap_buffers (fun _ => goodEnvA) false).2.2
      = some (MSetupError.drmError ("Failed to commit"))
    ∧ oneMonState.fastestGroupPending = [1]
    ∧ oneMonState.shouldUpdateFlag = false
    ∧ (oneMonState.swap_buffers (fun _ => goodEnvA) false).1.fastestGroupPending = []
    ∧ (oneMonState.swap_buffers (fun _ => goodEnvA) false).1.shouldUpdateFlag = true := by
  exact ⟨rfl, rfl, rfl, rfl, rfl⟩

/-- C4 (amended): during `EasyDRM::swap_buffers`, `mark_fast_group_commit`
is applied to every committed connector BEFORE the aggregate atomic commit
is submitted; consequently the grouping state after the call is the fold of
`mark_fast_group_commit` over the drawn connectors whether the commit
succeeds or fails — a failed commit returns the error with the grouping
state already updated. -/
theorem marks_applied_before_commit (e : EasyDRM Unit) (envf : Nat → SwapEnv)
    (hg : ∀ m ∈ e.monitors, m.wasDrawn = true → (envf m.connectorId).good = true) :
    ((e.swap_buffers envf false).2.2).isSome = true
    ∧ (e.swap_buffers envf true).2.2 = none
    ∧ groupState (e.swap_buffers envf false).1
        = groupState
            (((e.monitors.filter (fun m => m.wasDrawn)).map (fun m => m.connectorId)).foldl
              EasyDRM.mark_fast_group_commit e)
    ∧ groupState (e.swap_buffers envf true).1
        = groupState
            (((e.monitors.filter (fun m => m.wasDrawn)).map (fun m => m.connectorId)).foldl
              EasyDRM.mark_fast_group_commit e)
    := by
  have hl := swapLoop_good envf e.monitors hg
  have hcongr := groupState_foldl_congr (swapLoop envf e.monitors).committed
    ({ e with monitors := (swapLoop envf e.monitors).monitors }) e rfl
  rw [hl.2.2] at hcongr
  refine ⟨?_, ?_, ?_, ?_⟩
  · simp [EasyDRM.swap_buffers, hl.1]
  · simp [EasyDRM.swap_buffers, hl.1]
  · simpa [EasyDRM.swap_buffers, hl.1, hl.2.2] using hcongr
  · simpa [EasyDRM.swap_buffers, hl.1, hl.2.2] using hcongr

theorem marks_applied_before_commit_witness :
    ((oneMonState.swap_buffers (fun _ => goodEnvA) false).2.2).isSome = true
    ∧ (oneMonState.swap_buffers (fun _ => goodEnvA) true).2.2 = none
    ∧ groupState (oneMonState.swap_buffers (fun _ => goodEnvA) false).1
        = groupState
            (((oneMonState.monitors.filter (fun m => m.wasDrawn)).map
                (fun m => m.connectorId)).foldl
              EasyDRM.mark_fast_group_commit oneMonState)
    ∧ groupState (oneMonState.swap_buffers (fun _ => goodEnvA) true).1
        = groupState
            (((oneMonState.monitors.filter (fun m => m.wasDrawn)).map
                (fun m => m.connectorId)).foldl
              EasyDRM.mark_fast_group_commit oneMonState) :=
  marks_applied_before_commit oneMonState (fun _ => goodEnvA) (by decide)

/-! ## The fastest-group update pulse (C5) -/

/-- Operations on the grouping state between topology changes: a connector
being included in a commit batch (`mark_fast_group_commit`) or the caller
polling `should_update()`. -/
inductive GOp where
  | mark (cid : Nat)
  | poll
deriving DecidableEq

/-- Run a sequence of grouping operations, collecting the boolean returned
by each `should_update()` call in order. -/
def runGOps {T : Type} (e : EasyDRM T) : List GOp → EasyDRM T × List Bool
  | [] => (e, [])
  | GOp.mark c :: rest => runGOps (e.mark_fast_group_commit c) rest
  | GOp.poll :: rest =>
      let r := e.should_update
      let r2 := runGOps r.2 rest
      (r2.1, r.1 :: r2.2)

theorem no_update_without_mark {T : Type} (ops : List GOp) (m : Nat) :
    ∀ e : EasyDRM T, m ∈ e.fastestGroupPending → e.shouldUpdateFlag = false →
      GOp.mark m ∉ ops → true ∉ (runGOps e ops).2 := by
  induction ops with
  | nil => intro e hm hf hn; simp [runGOps]
  | cons op rest ih =>
      intro e hm hf hn
      have hnr : GOp.mark m ∉ rest := fun hx => hn (List.mem_cons_of_mem _ hx)
      cases op with
      | mark c =>
          have hcm : m ≠ c := by
            intro heq
            exact hn (by simp [heq])
          by_cases hc : c ∈ e.fastestGroupPending
          · have hcb : e.fastestGroupPending.contains c = true := by
              simpa using hc
            have hm2 : m ∈ e.fastestGroupPending.erase c :=
              (List.mem_erase_of_ne hcm).mpr hm
            have hne : (e.fastestGroupPending.erase c).isEmpty = false := by
              have hnil := List.ne_nil_of_mem hm2
              cases herase : e.fastestGroupPending.erase c with
              | nil => exact absurd herase hnil
              | cons a as => rfl
            have hmark : e.mark_fast_group_commit c
                = { e with fastestGroupPending := e.fastestGroupPending.erase c } := by
              simp only [EasyDRM.mark_fast_group_commit]
              rw [hcb, hne]
              rfl
            have hstep := ih (e.mark_fast_group_commit c)
              (by rw [hmark]; exact hm2) (by rw [hmark]; exact hf) hnr
            simpa [runGOps] using hstep
          · have hcb : e.fastestGroupPending.contains c = false := by
              simpa using hc
            have hmark : e.mark_fast_group_commit c = e := by
              simp only [EasyDRM.mark_fast_group_commit]
              rw [hcb]
              rfl
            have hstep := ih (e.mark_fast_group_commit c)
              (by rw [hmark]; exact hm) (by rw [hmark]; exact hf) hnr
            simpa [runGOps] using hstep
      | poll =>
          have hpoll : e.should_update = (false, e) := by
            simp [EasyDRM.should_update, hf]
          have hstep := ih e hm hf hnr
          simp [runGOps, hpoll]
          exact hstep

/-- C5: between topology changes, `should_update()` fires at most once per
cycle.  Part one: starting from a state whose flag is down, if some member
`m` of the pending set is never passed to `mark_fast_group_commit`, then no
`should_update()` call in the run returns true — the flag can only rise
when the pending set is emptied, which requires every member (in
particular `m`) to be marked since the last reset.  Part two: a call that
does return true lowers the flag and refills `fastest_group_pending` with
the fastest group's members (the group being non-empty, as any group built
from live monitors is). -/
theorem should_update_once_per_cycle (e : EasyDRM Unit) (r m : Nat)
    (ops : List GOp)
    (hm : m ∈ e.fastestGroupPending)
    (hf : e.shouldUpdateFlag = false)
    (hnm : GOp.mark m ∉ ops)
    (e2 : EasyDRM Unit) (h2r : e2.fastestGroupRefresh = some r)
    (h2ne : e2.refreshRateGroups r ≠ [])
    (h2f : e2.shouldUpdateFlag = true) :
    true ∉ (runGOps e ops).2
    ∧ e2.should_update.1 = true
    ∧ e2.should_update.2.fastestGroupPending = e2.refreshRateGroups r
    ∧ e2.should_update.2.shouldUpdateFlag = false := by
  refine ⟨no_update_without_mark ops m e hm hf hnm, ?_, ?_, ?_⟩
  · simp [EasyDRM.should_update, h2f]
  · simp [EasyDRM.should_update, h2f, EasyDRM.reset_fastest_group_pending, h2r]
  · have hne : (e2.refreshRateGroups r).isEmpty = false := by
      cases hg : e2.refreshRateGroups r with
      | nil => exact absurd hg h2ne
      | cons a as => rfl
    simp [EasyDRM.should_update, h2f, EasyDRM.reset_fastest_group_pending, h2r, hne]

/-- The grouping state of a two-monitor 60 Hz fastest group, freshly
reset: both connectors pending, flag down. -/
def twoPendingState : EasyDRM Unit :=
  { monitors := [],
    refreshRateGroups := fun r => if r == 60 then [1, 2] else [],
    fastestGroupRefresh := some 60,
    fastestGroupPending := [1, 2],
    shouldUpdateFlag := false }

/-- The same grouping state at the end of a cycle: pending emptied, flag
raised. -/
def firedState : EasyDRM Unit :=
  { twoPendingState with fastestGroupPending := [], shouldUpdateFlag := true }

theorem should_update_once_per_cycle_witness :
    true ∉ (runGOps twoPendingState [GOp.mark 1, GOp.poll]).2
    ∧ firedState.should_update.1 = true
    ∧ firedState.should_update.2.fastestGroupPending = firedState.refreshRateGroups 60
    ∧ firedState.should_update.2.shouldUpdateFlag = false :=
  should_update_once_per_cycle twoPendingState 60 2 [GOp.mark 1, GOp.poll]
    (by decide) rfl (by decide) firedState rfl (by decide) rfl
